import Mathlib

/-!
# Verification of the `dbuf` double-buffer library against its specification

This file is a shallow embedding, in Lean 4, of the parts of the `dbuf`
crate that the specification's claims talk about:

* the two-cell payload (`src/dbuf/src/raw.rs`: `DoubleBufferData`,
  `DoubleBufferCell::get`) and the raw writer/reader handlers built on it
  (`src/dbuf/src/raw/writer.rs`, `src/dbuf/src/raw/reader.rs`);
* `SimpleStrategy` (`src/dbuf/src/strategy/simple.rs`);
* `FlashStrategy` (`src/dbuf/src/strategy/flashmap.rs`);
* `EvMapStrategy` (`src/dbuf/src/strategy/evmap.rs`);
* the delay writer (`src/dbuf/src/delay.rs`);
* the operation-log writer (`src/dbuf/src/op.rs`, `src/dbuf/src/vec_drain.rs`).

Rust `u32`/`usize` values are modelled as `Nat` with explicit `% 2^32` /
`% 2^64` wrapping where the code performs wrapping arithmetic; `isize` is
modelled as `Int`.  Code that can panic is modelled with `Option` (`none`
is a panic).  Atomics are modelled as plain state, sequentially: every
theorem in this file is about sequential (interleaved, but not
overlapping) executions of the library's operations.
-/

namespace Dbuf

/-- Modulus of a 32-bit counter (`u32` in the source). -/
def U32_MOD : Nat := 2 ^ 32

/-- Modulus of a 64-bit counter (`usize` on a 64-bit target). -/
def U64_MOD : Nat := 2 ^ 64

/-! ## The payload: `DoubleBufferData` / `DoubleBufferCell` (src/dbuf/src/raw.rs)

`DoubleBufferCell` holds `parts: [UnsafeCell<T>; 2]`.  We model the array
as two fields and index it by a `Bool` the way the source indexes with
`b as usize` (so `part false = parts[0]`, `part true = parts[1]`). -/

structure DoubleBufferCell (T : Type) where
  parts0 : T
  parts1 : T
deriving Repr, DecidableEq

namespace DoubleBufferCell

/-- `parts[b as usize]`. -/
def part (c : DoubleBufferCell T) (b : Bool) : T :=
  if b then c.parts1 else c.parts0

/-- `DoubleBufferCell::get(swapped) -> (read, write)`:
`(parts[(!swapped) as usize], parts[swapped as usize])`. -/
def get (c : DoubleBufferCell T) (swapped : Bool) : T × T :=
  (c.part (!swapped), c.part swapped)

end DoubleBufferCell

/-- `DoubleBufferData::with_extras(back, front, strategy, extras)` stores
`parts = [front, back]` (note the source's constructor takes `back` first). -/
structure DoubleBufferData (T S E : Type) where
  buffers : DoubleBufferCell T
  strategy : S
  extras : E
deriving Repr, DecidableEq

def DoubleBufferData.withExtras (back front : T) (strategy : S) (extras : E) :
    DoubleBufferData T S E :=
  { buffers := { parts0 := front, parts1 := back }, strategy, extras }

/-- `DoubleBufferData::new(back, front, strategy)`. -/
def DoubleBufferData.new (back front : T) (strategy : S) : DoubleBufferData T S Unit :=
  DoubleBufferData.withExtras back front strategy ()

/-! ## `SimpleStrategy` (src/dbuf/src/strategy/simple.rs)

State: `num_readers: [Cell<u32>; 2]` and `swapped: Cell<bool>`.

* `acquire_read_guard` reads `swapped`, increments
  `num_readers[swapped as usize]` (`checked_add(1).expect(..)`, i.e. a
  panic on overflow, modelled as `none`) and returns `swapped` as the guard.
* `release_read_guard` decrements `num_readers[guard as usize]`
  (`wrapping_sub`).
* `try_start_swap` computes `next_swap = !swapped`; if
  `num_readers[next_swap as usize] != 0` it returns `Err(())`, otherwise it
  sets `swapped := next_swap` and returns `Ok(())`.
* `is_swap_finished` always returns `true` and `finish_swap` is a no-op. -/

structure SimpleStrategy where
  numReaders0 : Nat
  numReaders1 : Nat
  swapped : Bool
deriving Repr, DecidableEq

namespace SimpleStrategy

def new : SimpleStrategy := { numReaders0 := 0, numReaders1 := 0, swapped := false }

/-- `self.num_readers[b as usize]`. -/
def numReaders (s : SimpleStrategy) (b : Bool) : Nat :=
  if b then s.numReaders1 else s.numReaders0

def setNumReaders (s : SimpleStrategy) (b : Bool) (n : Nat) : SimpleStrategy :=
  if b then { s with numReaders1 := n } else { s with numReaders0 := n }

/-- `SimpleStrategy::acquire_read_guard`; `none` models the
`checked_add(1).expect("too many readers reading at once")` panic. -/
def acquireReadGuard (s : SimpleStrategy) : Option (Bool × SimpleStrategy) :=
  let swapped := s.swapped
  let n := s.numReaders swapped
  if n + 1 < U32_MOD then some (swapped, s.setNumReaders swapped (n + 1))
  else none

/-- `SimpleStrategy::release_read_guard` (`wrapping_sub(1)` on a `u32`). -/
def releaseReadGuard (s : SimpleStrategy) (guard : Bool) : SimpleStrategy :=
  let n := s.numReaders guard
  s.setNumReaders guard ((n + (U32_MOD - 1)) % U32_MOD)

/-- `SimpleStrategy::try_start_swap`. -/
def tryStartSwap (s : SimpleStrategy) : SimpleStrategy × Except Unit Unit :=
  let nextSwap := !s.swapped
  if s.numReaders nextSwap ≠ 0 then (s, .error ())
  else ({ s with swapped := nextSwap }, .ok ())

/-- `SimpleStrategy::is_swapped` (and `is_swapped_writer`): both read the
current `swapped` cell. -/
def isSwapped (s : SimpleStrategy) : Bool := s.swapped

end SimpleStrategy

/-! ### The raw writer/reader composed with `SimpleStrategy`

`Writer::split_mut` (src/dbuf/src/raw/writer.rs) computes
`swapped = strategy.is_swapped_writer(..)` and hands out
`write = &mut parts[swapped as usize]`.

`Reader::try_read` (src/dbuf/src/raw/reader.rs) acquires a guard, asks
`strategy.is_swapped(&guard)` and pins `read = parts[(!swapped) as usize]`.
For `SimpleStrategy`, `is_swapped` returns the live `swapped` cell, which
at the moment of `try_read` equals the guard value, so a guard `g` pins
cell index `!g`.

We track the whole system as the strategy state plus the list of live
(unreleased) guards, and replay sequences of operations. -/

/-- The buffer-cell index pinned by a live `SimpleStrategy` read guard `g`:
`Reader::try_read` reads `parts[(!is_swapped(..)) as usize]` and for
`SimpleStrategy` `is_swapped` equals the guard value at acquisition time. -/
def simplePinnedCell (g : Bool) : Bool := !g

/-- The buffer-cell index `Writer::split_mut` / `Writer::get_mut` hand out
mutably: `parts[is_swapped_writer(..) as usize]`. -/
def SimpleStrategy.writeSideIndex (s : SimpleStrategy) : Bool := s.swapped

/-- One payload-level operation on a double buffer driven by `SimpleStrategy`. -/
inductive SimpleOp where
  /-- `Reader::try_read`: acquire a guard and keep it live. -/
  | read : SimpleOp
  /-- drop the `i`-th live guard (`release_read_guard`). -/
  | release (i : Nat) : SimpleOp
  /-- `Writer::try_start_swap` (an `Err` leaves the state unchanged). -/
  | tryStartSwap : SimpleOp
  /-- `Writer::finish_swap`: a no-op for `SimpleStrategy`. -/
  | finishSwap : SimpleOp
deriving Repr, DecidableEq

/-- A double buffer driven by `SimpleStrategy`, together with the list of
live (unreleased) read guards. -/
structure SimpleSystem where
  strat : SimpleStrategy
  guards : List Bool
deriving Repr, DecidableEq

def SimpleSystem.init : SimpleSystem := { strat := SimpleStrategy.new, guards := [] }

/-- Replay one operation; `none` models a panic (guard-count overflow) or a
nonsensical trace (releasing a guard that does not exist). -/
def SimpleSystem.step (sys : SimpleSystem) : SimpleOp → Option SimpleSystem
  | .read =>
    match sys.strat.acquireReadGuard with
    | some (g, strat) => some { strat, guards := sys.guards ++ [g] }
    | none => none
  | .release i =>
    match sys.guards[i]? with
    | some g => some { strat := sys.strat.releaseReadGuard g,
                       guards := sys.guards.eraseIdx i }
    | none => none
  | .tryStartSwap =>
    let (strat, _) := sys.strat.tryStartSwap
    some { sys with strat }
  | .finishSwap => some sys

def SimpleSystem.run (sys : SimpleSystem) : List SimpleOp → Option SimpleSystem
  | [] => some sys
  | op :: ops => (sys.step op).bind (fun sys => sys.run ops)

/-- C1.  The claim states that for every reader guard pinning a buffer cell,
the writer never obtains an exclusive reference to that cell while the guard
is live, under any strategy including `SimpleStrategy`.  The code violates
this: replaying the concrete two-operation trace `read; try_start_swap` from
a fresh payload, the read guard (acquired at parity `false`) pins cell index
`1`, the swap nevertheless succeeds (because `SimpleStrategy::try_start_swap`
consults `num_readers[!swapped]`, the bucket that `acquire_read_guard` did
not increment), and afterwards `Writer::split_mut`/`get_mut` hand out cell
index `1` — the very cell the live guard still pins.  The trace includes the
(no-op) `finish_swap`, i.e. it is exactly the safe `Writer::try_swap` call
sequence, so the aliasing is reached without violating the documented
`try_start_swap` contract. -/
theorem simple_writer_aliases_pinned_cell :
    SimpleSystem.run SimpleSystem.init
        [SimpleOp.read, SimpleOp.tryStartSwap, SimpleOp.finishSwap] =
      some { strat := { numReaders0 := 1, numReaders1 := 0, swapped := true },
             guards := [false] } ∧
    simplePinnedCell false =
      SimpleStrategy.writeSideIndex
        { numReaders0 := 1, numReaders1 := 0, swapped := true } := by
  constructor
  · decide
  · rfl

/-- C4.  The claim states that `SimpleStrategy::try_start_swap` returns `Err`
iff some unreleased read guard pins the target cell of the swap (the cell
that would become the write side, i.e. the current read-side cell).  Both
directions fail on the code, at states reached by concrete traces from a
fresh payload: (a) after `read`, the live guard pins cell `1`, which is the
target of the swap (`next_swap = true`), yet `try_start_swap` succeeds; (b)
after `read; try_start_swap`, the same live guard pins cell `1` while the
target of the next swap is cell `0`, yet `try_start_swap` returns `Err`. -/
theorem simple_tryStartSwap_checks_wrong_cell :
    SimpleSystem.run SimpleSystem.init [SimpleOp.read] =
      some { strat := { numReaders0 := 1, numReaders1 := 0, swapped := false },
             guards := [false] } ∧
    (simplePinnedCell false =
        (!(SimpleStrategy.mk 1 0 false).swapped) ∧
      (SimpleStrategy.tryStartSwap (SimpleStrategy.mk 1 0 false)).2 = .ok ()) ∧
    SimpleSystem.run SimpleSystem.init [SimpleOp.read, SimpleOp.tryStartSwap] =
      some { strat := { numReaders0 := 1, numReaders1 := 0, swapped := true },
             guards := [false] } ∧
    (simplePinnedCell false ≠
        (!(SimpleStrategy.mk 1 0 true).swapped) ∧
      (SimpleStrategy.tryStartSwap (SimpleStrategy.mk 1 0 true)).2 = .error ()) := by
  refine ⟨by decide, ⟨rfl, rfl⟩, by decide, by decide, rfl⟩

/-! ## The operation-log writer (src/dbuf/src/op.rs)

The free function `swap_buffers(writer, op_log, water_line, params)` does:

```rust
let water_line = &mut SetOnDrop::new(water_line).0;   // copy of *water_line
for op in crate::vec_drain::drain_unti(op_log, ..*water_line) {
    *water_line -= 1;                                  // decrements the copy
    op.into_inner().apply_once(buffer, extras, params);
}
for op in op_log.iter_mut() {
    op.get_mut().apply(buffer, extras, params);
}
// SetOnDrop drops here: the original water_line is set to the copy
```

`drain_unti(op_log, ..n)` (src/dbuf/src/vec_drain.rs) removes and yields the
first `n` elements of the vector (indexing panics when `n > len`).  On a
normal (non-panicking) completion the loop has decremented the copy from the
original `water_line` down to `0`, and `SetOnDrop` writes that copy back.

The drain loop is mirrored by `opDrainLoop remaining copy buffer log`:
`remaining` is how many elements the drain still yields, `copy` is the
`SetOnDrop` copy being decremented. -/

def opDrainLoop (applyOnce : O → B → B) :
    Nat → Nat → B → List O → Nat × B × List O
  | 0, copy, buffer, log => (copy, buffer, log)
  | _ + 1, copy, buffer, [] => (copy, buffer, [])
  | n + 1, copy, buffer, op :: log =>
    opDrainLoop applyOnce n (copy - 1) (applyOnce op buffer) log

/-- The free function `swap_buffers` of src/dbuf/src/op.rs, acting on the
write-side buffer.  `none` models the slicing panic of
`drain_unti(op_log, ..water_line)` when `water_line > op_log.len()`.
`applyOnce` is `Operation::apply_once` and `apply` is `Operation::apply`. -/
def opSwapBuffers (applyOnce apply : O → B → B)
    (buffer : B) (opLog : List O) (waterLine : Nat) :
    Option (B × List O × Nat) :=
  if waterLine ≤ opLog.length then
    let drained := opDrainLoop applyOnce waterLine waterLine buffer opLog
    let copy := drained.1
    let buffer := drained.2.1
    let opLog := drained.2.2
    let buffer := opLog.foldl (fun b op => apply op b) buffer
    some (buffer, opLog, copy)
  else none

/-! ### `OpWriter::swap_buffers` over a full payload

`OpWriter::swap_buffers` runs `DelayWriter::finish_swap` (completing the
swap started at the end of the previous call), then the free function
`swap_buffers` on `split_mut().write = parts[is_swapped_writer() as usize]`,
then `DelayWriter::start_swap` (which flips the parity; the strategies used
with `OpWriter` have `SwapError = Infallible`).  A completed cycle is
therefore: apply to the current write-side cell, then flip the parity. -/

structure OpSystem (O B : Type) where
  buffers : DoubleBufferCell B
  swapped : Bool
  opLog : List O
  waterLine : Nat
deriving Repr, DecidableEq

/-- One completed `OpWriter::swap_buffers` call (the swap it starts at the
end is completed by the beginning of the next call). -/
def OpSystem.swapBuffersCycle (applyOnce apply : O → B → B) (s : OpSystem O B) :
    Option (OpSystem O B) :=
  match opSwapBuffers applyOnce apply (s.buffers.part s.swapped) s.opLog s.waterLine with
  | some (b, log, wl) =>
    some { buffers := if s.swapped then { s.buffers with parts1 := b }
                      else { s.buffers with parts0 := b },
           swapped := !s.swapped, opLog := log, waterLine := wl }
  | none => none

/-- `OpWriter::push`. -/
def OpSystem.push (s : OpSystem O B) (op : O) : OpSystem O B :=
  { s with opLog := s.opLog ++ [op] }

/-- Instrumented `Operation::apply`: record the operation id and that it was
applied via `apply` (`false`). -/
def applyEv (id : Nat) (b : List (Nat × Bool)) : List (Nat × Bool) := b ++ [(id, false)]

/-- Instrumented `Operation::apply_once`: record the operation id and that it
was applied via `apply_once` (`true`). -/
def applyOnceEv (id : Nat) (b : List (Nat × Bool)) : List (Nat × Bool) := b ++ [(id, true)]

/-- C2.  The claim states that an operation pushed into an `OpWriter` is,
after two completed `swap_buffers` calls, applied exactly twice — once per
cell, first via `apply` and then via `apply_once` — and removed from the
queue.  The code violates this: `swap_buffers` writes the drained-to-zero
`SetOnDrop` copy back into `water_line`, so `water_line` is `0` after every
call, no operation is ever drained into `apply_once`, and nothing is ever
removed from the queue.  Replaying `push 7` and two completed cycles from a
fresh op-writer, operation `7` has been applied to both cells via `apply`
(never via `apply_once`), is still in the queue, and a third cycle applies
it a third time. -/
theorem opwriter_reapplies_op_after_two_swaps :
    (OpSystem.swapBuffersCycle applyOnceEv applyEv
        (OpSystem.push { buffers := ⟨[], []⟩, swapped := false,
                         opLog := [], waterLine := 0 } 7)).bind
      (OpSystem.swapBuffersCycle applyOnceEv applyEv) =
      some { buffers := ⟨[(7, false)], [(7, false)]⟩, swapped := false,
             opLog := [7], waterLine := 0 } ∧
    OpSystem.swapBuffersCycle applyOnceEv applyEv
        { buffers := ⟨[(7, false)], [(7, false)]⟩, swapped := false,
          opLog := [7], waterLine := 0 } =
      some { buffers := ⟨[(7, false), (7, false)], [(7, false)]⟩, swapped := true,
             opLog := [7], waterLine := 0 } := by
  constructor
  · rfl
  · rfl

/-- C3.  The claim states that when `OpWriter::swap_buffers` completes
normally the stored `water_line` equals the length of the remaining
operation queue.  The code instead stores the `SetOnDrop` copy, which the
drain loop has decremented to `0`: with queue `[7]` and `water_line = 0`,
a completed `swap_buffers` leaves the queue at length `1` but stores
`water_line = 0`. -/
theorem opwriter_water_line_is_zero_not_queue_length :
    opSwapBuffers applyOnceEv applyEv [] [7] 0 = some ([(7, false)], [7], 0) ∧
    (0 : Nat) ≠ List.length [7] := by
  constructor
  · rfl
  · decide

/-! ## `FlashStrategy` (src/dbuf/src/strategy/flashmap.rs)

Global state: `swap_state: AtomicUsize` (only the `SWAPPED = 1` bit is ever
toggled by the writer), `readers: Mutex<Vec<Arc<AtomicUsize>>>`, and
`residual: AtomicIsize`.  Each reader slot is one word holding the parity
cached at guard acquisition plus the `READER_ACTIVE = 2` bit.  A slot is
modelled with a `shared` flag (`!Arc::is_unique`, i.e. whether some
`ReaderId` still references it) and its word. -/

def SWAPPED : Nat := 1
def READER_ACTIVE : Nat := 2

structure FlashReader where
  shared : Bool
  word : Nat
deriving Repr, DecidableEq

structure FlashState where
  swapState : Nat
  readers : List FlashReader
  residual : Int
deriving Repr, DecidableEq

structure FlashSwap where
  residual : Int
deriving Repr, DecidableEq

namespace FlashState

def withParkToken : FlashState := { swapState := 0, readers := [], residual := 0 }

/-- The `readers.retain(..)` scan of `FlashStrategy::try_start_swap`: drop
slots with `Arc::is_unique`, and count one residual for every retained slot
whose word equals `residual_swap_state`. -/
def scanReaders (residualSwapState : Nat) :
    List FlashReader → List FlashReader × Int
  | [] => ([], 0)
  | r :: rest =>
    if !r.shared then scanReaders residualSwapState rest
    else
      let (kept, residual) := scanReaders residualSwapState rest
      (r :: kept, if r.word = residualSwapState then residual + 1 else residual)

/-- `FlashStrategy::try_start_swap`: toggle the `SWAPPED` bit
(`fetch_xor` returning the old state), then scan the reader slots with
`residual_swap_state = old_swap_state | READER_ACTIVE`. -/
def tryStartSwap (s : FlashState) : FlashState × FlashSwap :=
  let oldSwapState := s.swapState
  let s := { s with swapState := s.swapState ^^^ SWAPPED }
  let residualSwapState := oldSwapState ||| READER_ACTIVE
  let (readers, residual) := scanReaders residualSwapState s.readers
  ({ s with readers }, { residual })

/-- `Swap::expected_residual`. -/
def expectedResidual (sw : FlashSwap) : Int := -sw.residual

/-- `FlashStrategy::is_swap_finished`. -/
def isSwapFinished (s : FlashState) (sw : FlashSwap) : Bool :=
  s.residual = expectedResidual sw

/-- `FlashStrategy::poll` (the common completion path of `finish_swap` /
`register_context`); the parker registration is irrelevant to the state we
model.  Returns the new state, the new swap token, and whether the poll
resolved (`Poll::Ready`). -/
def poll (s : FlashState) (sw : FlashSwap) : FlashState × FlashSwap × Bool :=
  if s.residual = expectedResidual sw then
    (if sw.residual ≠ 0 then { s with residual := s.residual + sw.residual } else s,
     sw, true)
  else
    let expected := expectedResidual sw
    let r := sw.residual
    let sw := { sw with residual := 0 }
    let old := s.residual
    let s := { s with residual := s.residual + r }
    if old = expected then (s, sw, true) else (s, sw, false)

/-- `FlashStrategy::acquire_read_guard` on the slot at index `i`; `none`
models the `assert_eq!(reader_id & READER_ACTIVE, 0, "Detected a leaked read
guard")` panic (or a nonsensical slot index).  The guard records the
`swap_state` loaded at acquisition. -/
def acquireReadGuard (s : FlashState) (i : Nat) : Option (Nat × FlashState) :=
  match s.readers[i]? with
  | none => none
  | some r =>
    if r.word &&& READER_ACTIVE ≠ 0 then none
    else
      some (s.swapState,
        { s with readers := s.readers.set i { r with word := s.swapState ||| READER_ACTIVE } })

/-- `FlashStrategy::release_read_guard` on the slot at index `i`: clear the
active bit (`fetch_xor READER_ACTIVE`); if the resulting word differs from
the live `swap_state` this is a residual reader and `residual` is
decremented (the possible parker wake is not part of the modelled state).
`none` models a nonsensical slot index. -/
def releaseReadGuard (s : FlashState) (i : Nat) : Option FlashState :=
  match s.readers[i]? with
  | none => none
  | some r =>
    let readerSwapState := r.word ^^^ READER_ACTIVE
    let s := { s with readers := s.readers.set i { r with word := readerSwapState } }
    if s.swapState = readerSwapState then some s
    else some { s with residual := s.residual - 1 }

/-- `FlashStrategy::is_swapped` of a guard. -/
def guardIsSwapped (guard : Nat) : Bool := guard ≠ 0

/-- `FlashStrategy::is_swapped_writer`. -/
def isSwappedWriter (s : FlashState) : Bool := s.swapState ≠ 0

/-- `FlashStrategy::create_reader_id` pushes a fresh shared slot with word
`0` onto the reader list. -/
def createReaderId (s : FlashState) : FlashState :=
  { s with readers := s.readers ++ [{ shared := true, word := 0 }] }

end FlashState

/-- The one-pass retain-and-count scan of `FlashStrategy::try_start_swap`
keeps exactly the still-shared slots and counts exactly those kept slots
whose word equals `residual_swap_state`. -/
lemma scanReaders_eq_filter_countP (rss : Nat) (l : List FlashReader) :
    FlashState.scanReaders rss l =
      (l.filter (fun r => r.shared),
        ((l.filter (fun r => r.shared)).countP
          (fun r => decide (r.word = rss)) : Int)) := by
  induction l with
  | nil => rfl
  | cons r rest ih =>
    rw [FlashState.scanReaders, ih]
    by_cases h : r.shared
    · simp [h, List.filter_cons, List.countP_cons]
      by_cases hw : r.word = rss <;> simp [hw]
    · simp [h, List.filter_cons]

/-- C6.  `FlashStrategy::try_start_swap` toggles the global parity bit and
returns a `Swap` whose `residual` is exactly the number of still-shared
reader slots whose word equals the pre-swap `swap_state` with the
`READER_ACTIVE` bit set; slots no longer referenced by any reader handle
(`Arc::is_unique`) are dropped from the list during the scan; a word with a
cleared active bit, and the word showing the new parity with the active bit,
can never be counted. -/
theorem flash_tryStartSwap_residual_spec (s : FlashState) :
    s.tryStartSwap.1.swapState = s.swapState ^^^ SWAPPED ∧
    s.tryStartSwap.1.readers = s.readers.filter (fun r => r.shared) ∧
    s.tryStartSwap.1.residual = s.residual ∧
    s.tryStartSwap.2.residual =
      ((s.readers.filter (fun r => r.shared)).countP
        (fun r => decide (r.word = s.swapState ||| READER_ACTIVE)) : Int) ∧
    (∀ w : Nat, w &&& READER_ACTIVE = 0 → w ≠ s.swapState ||| READER_ACTIVE) ∧
    ((s.swapState ^^^ SWAPPED) ||| READER_ACTIVE ≠ s.swapState ||| READER_ACTIVE) := by
  refine ⟨?_, ?_, ?_, ?_, ?_, ?_⟩
  · rfl
  · show (FlashState.scanReaders _ s.readers).1 = _
    rw [scanReaders_eq_filter_countP]
  · rfl
  · show (FlashState.scanReaders _ s.readers).2 = _
    rw [scanReaders_eq_filter_countP]
  · intro w hw
    rintro rfl
    have h1 := congrArg (Nat.testBit · 1) hw
    have h2 : Nat.testBit 2 1 = true := by decide
    simp [READER_ACTIVE, Nat.testBit_and, Nat.testBit_or, h2] at h1
  · intro h
    have h0 := congrArg (Nat.testBit · 0) h
    simp [SWAPPED, READER_ACTIVE, Nat.testBit_or, Nat.testBit_xor] at h0
    omega

/-- Witness for `flash_tryStartSwap_residual_spec` at a concrete state: one
unique slot (dropped), one shared residual slot (`word = old | ACTIVE`), one
shared idle slot (not counted). -/
theorem flash_tryStartSwap_residual_spec_witness :
    ({ swapState := 0,
       readers := [{ shared := false, word := 2 }, { shared := true, word := 2 },
                   { shared := true, word := 0 }],
       residual := 0 } : FlashState).tryStartSwap.2.residual = 1 ∧
    (0 : Nat) &&& READER_ACTIVE = 0 ∧ (0 : Nat) ≠ (0 : Nat) ||| READER_ACTIVE := by
  have h := flash_tryStartSwap_residual_spec
    { swapState := 0,
      readers := [{ shared := false, word := 2 }, { shared := true, word := 2 },
                  { shared := true, word := 0 }],
      residual := 0 }
  exact ⟨by rw [h.2.2.2.1]; rfl, by decide, h.2.2.2.2.1 0 (by decide)⟩

/-! ## `EvMapStrategy` (src/dbuf/src/strategy/evmap.rs)

Per reader: an `Epoch { current: AtomicUsize, last: Cell<usize> }` (held via
`Arc`, so each epoch also carries a `shared` flag modelling
`!Arc::is_unique`).  Global state: a flags byte with bits `IS_SWAPPED` and
`HAS_NEW_EPOCHS`, the writer-side `epochs` vector and the mutex-guarded
`new_epochs_from_reader` vector. -/

structure EvEpoch where
  shared : Bool
  current : Nat
  last : Nat
deriving Repr, DecidableEq

structure EvMapState where
  isSwapped : Bool
  hasNewEpochs : Bool
  epochs : List EvEpoch
  newEpochs : List EvEpoch
deriving Repr, DecidableEq

/-- `Swap { start, end }` (Lean reserves `end`, hence `stop`). -/
structure EvSwap where
  start : Nat
  stop : Nat
deriving Repr, DecidableEq

namespace EvMapState

/-- `EvMapStrategy::try_start_swap`: toggle `IS_SWAPPED`, merge the epochs
registered by readers (when `HAS_NEW_EPOCHS` is set), retain the non-unique
epochs, snapshot every `last := current`, and return `Swap { 0, len }`. -/
def tryStartSwap (s : EvMapState) : EvMapState × EvSwap :=
  let s := { s with isSwapped := !s.isSwapped }
  let s := if s.hasNewEpochs then
      { s with epochs := s.epochs ++ s.newEpochs, newEpochs := [],
               hasNewEpochs := false }
    else s
  let epochs := (s.epochs.filter (fun e => e.shared)).map
    (fun e => { e with last := e.current })
  ({ s with epochs }, { start := 0, stop := epochs.length })

/-- One epoch passes the `is_swap_finished` scan: skipped when its snapshot
`last` is even, otherwise its live `current` must differ from `last`. -/
def evOk (e : EvEpoch) : Bool := e.last % 2 == 0 || e.current != e.last

/-- Offset of the first epoch failing the scan, if any (the loop of the free
function `is_swap_finished` with its early `return false`). -/
def findFailIdx : List EvEpoch → Option Nat
  | [] => none
  | e :: rest => if evOk e then (findFailIdx rest).map (· + 1) else some 0

/-- The free function `is_swap_finished(epochs, _writer, swap)`: scan
`epochs[swap.start..swap.end]`; on the first failure at offset `i` set
`swap.start += i` and return `false`; otherwise set `swap.start = swap.end`
and return `true`. -/
def isSwapFinished (epochs : List EvEpoch) (sw : EvSwap) : EvSwap × Bool :=
  match findFailIdx ((epochs.drop sw.start).take (sw.stop - sw.start)) with
  | some i => ({ sw with start := sw.start + i }, false)
  | none => ({ sw with start := sw.stop }, true)

/-- `EvMapStrategy::acquire_read_guard` on one reader's epoch: `none` models
the `read failed: tried to read from a read handle after the read guard was
leaked` panic when `current` is odd; otherwise `current` is incremented
(`fetch_add(1)` on a `usize`) and the guard is the live `IS_SWAPPED` flag. -/
def acquireReadGuard (isSwapped : Bool) (e : EvEpoch) : Option (Bool × EvEpoch) :=
  if e.current % 2 ≠ 0 then none
  else some (isSwapped, { e with current := (e.current + 1) % U64_MOD })

/-- `EvMapStrategy::release_read_guard` on one reader's epoch (the parker
wake is not part of the modelled state). -/
def releaseReadGuard (e : EvEpoch) : EvEpoch :=
  { e with current := (e.current + 1) % U64_MOD }

end EvMapState

lemma findFailIdx_eq_none_iff (l : List EvEpoch) :
    EvMapState.findFailIdx l = none ↔ ∀ e ∈ l, EvMapState.evOk e = true := by
  induction l with
  | nil => simp [EvMapState.findFailIdx]
  | cons e rest ih =>
    rw [EvMapState.findFailIdx]
    by_cases h : EvMapState.evOk e <;> simp [h, ih]

lemma findFailIdx_eq_some_mem (l : List EvEpoch) (i : Nat) :
    EvMapState.findFailIdx l = some i → ∃ e ∈ l, EvMapState.evOk e = false := by
  induction l generalizing i with
  | nil => simp [EvMapState.findFailIdx]
  | cons e rest ih =>
    rw [EvMapState.findFailIdx]
    by_cases h : EvMapState.evOk e
    · simp only [h, if_pos]
      intro hmap
      match hr : EvMapState.findFailIdx rest with
      | none => rw [hr] at hmap; simp at hmap
      | some j =>
        obtain ⟨e', he', hf⟩ := ih j hr
        exact ⟨e', List.mem_cons_of_mem _ he', hf⟩
    · intro _
      exact ⟨e, List.mem_cons_self _ _, by simpa using h⟩

/-- C5.  For `EvMapStrategy`: guard acquisition and guard release each
increment the reader's `current` counter by exactly one (acquisition
requires an even — idle — counter and makes it odd; release makes it even
again), and `is_swap_finished` returns `true` iff every epoch snapshotted by
the matching `try_start_swap` whose snapshot `last` was odd now has
`current ≠ last`.  The swap token produced by `try_start_swap` covers the
whole epoch list (`start = 0`, `end = len`) with `last = current` snapshots,
and `is_swap_finished` only skips (via `swap.start`) epochs it has already
verified, which the third hypothesis records. -/
theorem evmap_epoch_protocol :
    (∀ (b : Bool) (e : EvEpoch), e.current % 2 = 0 → e.current + 1 < U64_MOD →
      EvMapState.acquireReadGuard b e =
        some (b, { e with current := e.current + 1 })) ∧
    (∀ e : EvEpoch, e.current + 1 < U64_MOD →
      (EvMapState.releaseReadGuard e).current = e.current + 1) ∧
    (∀ s : EvMapState,
      s.tryStartSwap.2.start = 0 ∧
      s.tryStartSwap.2.stop = s.tryStartSwap.1.epochs.length ∧
      ∀ e ∈ s.tryStartSwap.1.epochs, e.last = e.current) ∧
    (∀ (epochs : List EvEpoch) (sw : EvSwap), sw.stop = epochs.length →
      (∀ e ∈ epochs.take sw.start, EvMapState.evOk e = true) →
      ((EvMapState.isSwapFinished epochs sw).2 = true ↔
        ∀ e ∈ epochs, EvMapState.evOk e = true)) := by
  refine ⟨?_, ?_, ?_, ?_⟩
  · intro b e h1 h2
    simp [EvMapState.acquireReadGuard, h1, Nat.mod_eq_of_lt h2]
  · intro e h
    simp [EvMapState.releaseReadGuard, Nat.mod_eq_of_lt h]
  · intro s
    refine ⟨rfl, rfl, ?_⟩
    intro e he
    simp only [EvMapState.tryStartSwap, List.mem_map] at he
    obtain ⟨e', _, rfl⟩ := he
    rfl
  · intro epochs sw hstop hpre
    have hslice : (epochs.drop sw.start).take (sw.stop - sw.start) =
        epochs.drop sw.start := by
      rw [hstop, ← List.length_drop, List.take_length]
    rw [EvMapState.isSwapFinished, hslice]
    cases h : EvMapState.findFailIdx (epochs.drop sw.start) with
    | none =>
      simp only [iff_true]
      rw [findFailIdx_eq_none_iff] at h
      constructor
      · intro _ e he
        rw [← List.take_append_drop sw.start epochs] at he
        rcases List.mem_append.1 he with he | he
        · exact hpre e he
        · exact h e he
      · intro _; trivial
    | some i =>
      simp only [Bool.false_eq_true, false_iff]
      obtain ⟨e, he, hf⟩ := findFailIdx_eq_some_mem _ _ h
      intro hall
      have := hall e (List.drop_subset _ _ he)
      rw [this] at hf
      cases hf

/-- Witness for `evmap_epoch_protocol`: a concrete idle epoch is acquired
(counter `0 → 1`) and released (`1 → 2`), and `is_swap_finished` on a
one-epoch list whose odd snapshot has been left behind returns `true`. -/
theorem evmap_epoch_protocol_witness :
    EvMapState.acquireReadGuard false ⟨true, 0, 0⟩ =
      some (false, ⟨true, 1, 0⟩) ∧
    (EvMapState.releaseReadGuard ⟨true, 1, 0⟩).current = 2 ∧
    ((EvMapState.isSwapFinished [⟨true, 2, 1⟩] ⟨0, 1⟩).2 = true ↔
      ∀ e ∈ [(⟨true, 2, 1⟩ : EvEpoch)], EvMapState.evOk e = true) := by
  refine ⟨evmap_epoch_protocol.1 false ⟨true, 0, 0⟩ (by decide) (by norm_num [U64_MOD]),
    evmap_epoch_protocol.2.1 ⟨true, 1, 0⟩ (by norm_num [U64_MOD]),
    evmap_epoch_protocol.2.2.2 [⟨true, 2, 1⟩] ⟨0, 1⟩ rfl (by simp)⟩

/-! ## The payload composed with Flash / EvMap (claims about `raw::Writer` /
`raw::Reader` driven by the production strategies)

`Reader::try_read` acquires a guard, asks `is_swapped(&guard)` and reads
`parts[(!swapped) as usize]`; dropping the guard releases it.  A full
read-then-drop on reader slot `i` is one `ReadCycle`.  `Writer::try_swap` is
`try_start_swap` followed by `finish_swap`; `finish_swap` first polls
`is_swap_finished` and returns without suspending when it already holds
(`ThreadParkToken::park_until` checks its predicate before parking), which
is the only case a sequential model can exhibit. -/

/-- A complete `Reader::try_read` + guard drop against `FlashStrategy` on
reader slot `i`: returns the buffer-cell index the guard pinned and the
strategy state after the release. -/
def flashReadCycle (s : FlashState) (i : Nat) : Option (Bool × FlashState) :=
  match s.acquireReadGuard i with
  | none => none
  | some (guard, s) =>
    let side := !(FlashState.guardIsSwapped guard)
    (s.releaseReadGuard i).map (fun s => (side, s))

/-- `Writer::try_swap` against `FlashStrategy` when it completes without
suspending: `try_start_swap`, then the `poll` inside `finish_swap` resolves
immediately (`none` means the writer would have to park). -/
def flashTrySwapNow (s : FlashState) : Option FlashState :=
  let (s, sw) := s.tryStartSwap
  let (s, _, ready) := s.poll sw
  if ready then some s else none

/-- `EvMapStrategy::is_swapped_writer`. -/
def EvMapState.isSwappedWriter (s : EvMapState) : Bool := s.isSwapped

/-- `EvMapStrategy::create_reader_id_from_writer`: push a fresh epoch onto
the writer-side vector. -/
def EvMapState.createReaderIdFromWriter (s : EvMapState) : EvMapState :=
  { s with epochs := s.epochs ++ [{ shared := true, current := 0, last := 0 }] }

/-- A complete `Reader::try_read` + guard drop against `EvMapStrategy` on
the reader whose epoch sits at index `i`. -/
def evReadCycle (s : EvMapState) (i : Nat) : Option (Bool × EvMapState) :=
  match s.epochs[i]? with
  | none => none
  | some e =>
    match EvMapState.acquireReadGuard s.isSwapped e with
    | none => none
    | some (g, e) =>
      let e := EvMapState.releaseReadGuard e
      some (!g, { s with epochs := s.epochs.set i e })

/-- `Writer::try_swap` against `EvMapStrategy` when it completes without
suspending (the `park_until` predicate holds at its first check). -/
def evTrySwapNow (s : EvMapState) : Option EvMapState :=
  let (s, sw) := s.tryStartSwap
  if (EvMapState.isSwapFinished s.epochs sw).2 then some s else none

/-- `EvMapStrategy::new`. -/
def EvMapState.new : EvMapState :=
  { isSwapped := false, hasNewEpochs := false, epochs := [], newEpochs := [] }

/-- C7.  A payload freshly built as `DoubleBufferData::new(front, back, _)`
(the source constructor's first parameter is the cell readers see first)
with a Flash or EvMap strategy and one registered, idle reader: a read pins
cell `1` and observes `front`; the write side is cell `0` holding `back`.
One `swap()` completes without suspending and exchanges the roles (reads pin
cell `0` = `back`, write side is cell `1` = `front`); a second `swap()`
completes likewise and restores the initial orientation with the same
observed values on both sides. -/
theorem payload_double_swap_roundtrip (T : Type) (x y : T) :
    -- the cells: parts[1] = front = x, parts[0] = back = y
    (DoubleBufferData.new x y ()).buffers.part true = x ∧
    (DoubleBufferData.new x y ()).buffers.part false = y ∧
    -- Flash: fresh strategy with one registered reader slot
    FlashState.withParkToken.createReaderId =
      { swapState := 0, readers := [{ shared := true, word := 0 }], residual := 0 } ∧
    -- initial read pins cell 1 (= front); the write side is cell 0 (= back)
    flashReadCycle
        { swapState := 0, readers := [{ shared := true, word := 0 }], residual := 0 } 0 =
      some (true,
        { swapState := 0, readers := [{ shared := true, word := 0 }], residual := 0 }) ∧
    FlashState.isSwappedWriter
        { swapState := 0, readers := [{ shared := true, word := 0 }], residual := 0 } = false ∧
    -- first swap completes immediately
    flashTrySwapNow
        { swapState := 0, readers := [{ shared := true, word := 0 }], residual := 0 } =
      some { swapState := 1, readers := [{ shared := true, word := 0 }], residual := 0 } ∧
    -- roles exchanged: reads pin cell 0 (= back); write side is cell 1 (= front)
    flashReadCycle
        { swapState := 1, readers := [{ shared := true, word := 0 }], residual := 0 } 0 =
      some (false,
        { swapState := 1, readers := [{ shared := true, word := 1 }], residual := 0 }) ∧
    FlashState.isSwappedWriter
        { swapState := 1, readers := [{ shared := true, word := 1 }], residual := 0 } = true ∧
    -- second swap completes immediately and restores the initial parity
    flashTrySwapNow
        { swapState := 1, readers := [{ shared := true, word := 1 }], residual := 0 } =
      some { swapState := 0, readers := [{ shared := true, word := 1 }], residual := 0 } ∧
    flashReadCycle
        { swapState := 0, readers := [{ shared := true, word := 1 }], residual := 0 } 0 =
      some (true,
        { swapState := 0, readers := [{ shared := true, word := 0 }], residual := 0 }) ∧
    -- EvMap: fresh strategy with one registered reader epoch
    EvMapState.new.createReaderIdFromWriter =
      { isSwapped := false, hasNewEpochs := false,
        epochs := [{ shared := true, current := 0, last := 0 }], newEpochs := [] } ∧
    evReadCycle
        { isSwapped := false, hasNewEpochs := false,
          epochs := [{ shared := true, current := 0, last := 0 }], newEpochs := [] } 0 =
      some (true,
        { isSwapped := false, hasNewEpochs := false,
          epochs := [{ shared := true, current := 2, last := 0 }], newEpochs := [] }) ∧
    EvMapState.isSwappedWriter
        { isSwapped := false, hasNewEpochs := false,
          epochs := [{ shared := true, current := 2, last := 0 }], newEpochs := [] } = false ∧
    evTrySwapNow
        { isSwapped := false, hasNewEpochs := false,
          epochs := [{ shared := true, current := 2, last := 0 }], newEpochs := [] } =
      some { isSwapped := true, hasNewEpochs := false,
             epochs := [{ shared := true, current := 2, last := 2 }], newEpochs := [] } ∧
    evReadCycle
        { isSwapped := true, hasNewEpochs := false,
          epochs := [{ shared := true, current := 2, last := 2 }], newEpochs := [] } 0 =
      some (false,
        { isSwapped := true, hasNewEpochs := false,
          epochs := [{ shared := true, current := 4, last := 2 }], newEpochs := [] }) ∧
    EvMapState.isSwappedWriter
        { isSwapped := true, hasNewEpochs := false,
          epochs := [{ shared := true, current := 4, last := 2 }], newEpochs := [] } = true ∧
    evTrySwapNow
        { isSwapped := true, hasNewEpochs := false,
          epochs := [{ shared := true, current := 4, last := 2 }], newEpochs := [] } =
      some { isSwapped := false, hasNewEpochs := false,
             epochs := [{ shared := true, current := 4, last := 4 }], newEpochs := [] } ∧
    evReadCycle
        { isSwapped := false, hasNewEpochs := false,
          epochs := [{ shared := true, current := 4, last := 4 }], newEpochs := [] } 0 =
      some (true,
        { isSwapped := false, hasNewEpochs := false,
          epochs := [{ shared := true, current := 6, last := 4 }], newEpochs := [] }) := by
  refine ⟨rfl, rfl, ?_, ?_, ?_, ?_, ?_, ?_, ?_, ?_, ?_, ?_, ?_, ?_, ?_, ?_, ?_, ?_⟩ <;> decide

/-- Witness for `payload_double_swap_roundtrip` at the spec's literal basic
scenario `front = 0, back = 1`. -/
theorem payload_double_swap_roundtrip_witness :
    (DoubleBufferData.new 0 1 ()).buffers.part true = 0 ∧
    (DoubleBufferData.new 0 1 ()).buffers.part false = 1 :=
  ⟨(payload_double_swap_roundtrip Nat 0 1).1,
   (payload_double_swap_roundtrip Nat 0 1).2.1⟩

/-! ## `DelayWriter` (src/dbuf/src/delay.rs)

A wrapped raw writer plus `swap: Option<S::Swap>`.  The underlying
strategy's `try_start_swap` is abstracted as a state transformer
`tryStart : σ → σ × Except ε Sw`. -/

structure DelayWriter (σ Sw ε : Type) where
  writer : σ
  swap : Option Sw
deriving Repr, DecidableEq

/-- `DelayWriter::try_start_swap`: only when no swap is stored does it call
the writer's `try_start_swap` (storing the token on success, propagating the
error otherwise); it always returns `Ok(())` when a swap is already stored. -/
def DelayWriter.tryStartSwap (tryStart : σ → σ × Except ε Sw)
    (w : DelayWriter σ Sw ε) : DelayWriter σ Sw ε × Except ε Unit :=
  match w.swap with
  | some _ => (w, .ok ())
  | none =>
    let (writer, r) := tryStart w.writer
    match r with
    | .ok sw => ({ writer, swap := some sw }, .ok ())
    | .error e => ({ writer, swap := none }, .error e)

/-- C8.  While a `DelayWriter` holds a pending swap, `try_start_swap` (and
hence `start_swap`, which is `try_start_swap().expect(..)`) is a no-op: the
stored token and the underlying writer/strategy state are unchanged and the
call returns `Ok`, so calling it twice in a row is observably identical to
calling it once. -/
theorem delay_tryStartSwap_idempotent_while_pending
    (σ Sw ε : Type) (tryStart : σ → σ × Except ε Sw)
    (w : DelayWriter σ Sw ε) (s : Sw) (h : w.swap = some s) :
    DelayWriter.tryStartSwap tryStart w = (w, .ok ()) ∧
    DelayWriter.tryStartSwap tryStart
        (DelayWriter.tryStartSwap tryStart w).1 = (w, .ok ()) := by
  obtain ⟨writer, swap⟩ := w
  cases h
  exact ⟨rfl, rfl⟩

/-- Witness for `delay_tryStartSwap_idempotent_while_pending` at a concrete
delay writer holding a pending swap token. -/
theorem delay_tryStartSwap_idempotent_witness :
    DelayWriter.tryStartSwap (fun s : Unit => (s, .ok ()))
        ({ writer := (), swap := some () } : DelayWriter Unit Unit Unit) =
      ({ writer := (), swap := some () }, .ok ()) := by
  exact (delay_tryStartSwap_idempotent_while_pending Unit Unit Unit
    (fun s => (s, .ok ())) { writer := (), swap := some () } () rfl).1

/-! ## Nested reads on one reader handle (claim C9) -/

/-- A word with `READER_ACTIVE` or-ed in always has the active bit set. -/
lemma or_active_and_active_ne_zero (w : Nat) :
    (w ||| READER_ACTIVE) &&& READER_ACTIVE ≠ 0 := by
  intro h
  have h1 := congrArg (Nat.testBit · 1) h
  have h2 : Nat.testBit 2 1 = true := by decide
  simp [READER_ACTIVE, Nat.testBit_and, Nat.testBit_or, h2] at h1

/-- Incrementing an even counter modulo `2^64` yields an odd counter. -/
lemma succ_mod_u64_odd (c : Nat) (h : c % 2 = 0) : ((c + 1) % U64_MOD) % 2 = 1 := by
  have hdvd : (2 : Nat) ∣ U64_MOD := ⟨2 ^ 63, by norm_num [U64_MOD]⟩
  rw [Nat.mod_mod_of_dvd _ hdvd, Nat.add_mod, h]

/-- C9.  A nested read on the same reader handle aborts rather than
returning a second guard: `FlashStrategy::acquire_read_guard` panics
(`assert_eq!`) whenever the slot's `READER_ACTIVE` bit is set — in
particular immediately after a successful acquisition — and
`EvMapStrategy::acquire_read_guard` panics whenever the epoch's `current`
counter is odd — in particular immediately after a successful
acquisition. -/
theorem nested_read_never_returns_guard :
    (∀ (s : FlashState) (i : Nat) (r : FlashReader), s.readers[i]? = some r →
      r.word &&& READER_ACTIVE ≠ 0 → s.acquireReadGuard i = none) ∧
    (∀ (s : FlashState) (i : Nat) (g : Nat) (s' : FlashState),
      s.acquireReadGuard i = some (g, s') → s'.acquireReadGuard i = none) ∧
    (∀ (b : Bool) (e : EvEpoch), e.current % 2 ≠ 0 →
      EvMapState.acquireReadGuard b e = none) ∧
    (∀ (b b' : Bool) (e : EvEpoch) (g : Bool) (e' : EvEpoch),
      EvMapState.acquireReadGuard b e = some (g, e') →
      EvMapState.acquireReadGuard b' e' = none) := by
  refine ⟨?_, ?_, ?_, ?_⟩
  · intro s i r hget hact
    simp [FlashState.acquireReadGuard, hget, hact]
  · intro s i g s' h
    match hget : s.readers[i]? with
    | none => simp [FlashState.acquireReadGuard, hget] at h
    | some r =>
      have hi : i < s.readers.length := by
        by_contra hlen
        rw [List.getElem?_eq_none (by omega)] at hget
        cases hget
      by_cases hact : r.word &&& READER_ACTIVE = 0
      · simp [FlashState.acquireReadGuard, hget, hact] at h
        obtain ⟨-, h2⟩ := h
        rw [← h2, FlashState.acquireReadGuard]
        simp [List.getElem?_set_self hi, or_active_and_active_ne_zero]
      · simp [FlashState.acquireReadGuard, hget, hact] at h
  · intro b e h
    rw [EvMapState.acquireReadGuard, if_pos h]
  · intro b b' e g e' h
    by_cases he : e.current % 2 = 0
    · simp [EvMapState.acquireReadGuard, he] at h
      obtain ⟨-, h2⟩ := h
      rw [← h2, EvMapState.acquireReadGuard]
      simp [succ_mod_u64_odd e.current he]
    · simp [EvMapState.acquireReadGuard, he] at h

/-- Witness for `nested_read_never_returns_guard`: concrete single-slot
Flash and single-epoch EvMap states where the second acquisition aborts. -/
theorem nested_read_never_returns_guard_witness :
    FlashState.acquireReadGuard
      { swapState := 0, readers := [{ shared := true, word := 2 }], residual := 0 } 0 =
      none ∧
    EvMapState.acquireReadGuard false ⟨true, 1, 0⟩ = none := by
  constructor
  · exact nested_read_never_returns_guard.1
      { swapState := 0, readers := [{ shared := true, word := 2 }], residual := 0 } 0
      { shared := true, word := 2 } rfl (by decide)
  · exact nested_read_never_returns_guard.2.2.1 false ⟨true, 1, 0⟩ (by decide)

/-! ## `Reader::clone` / `Reader::try_read` over an upgradable pointer
(src/dbuf/src/raw/reader.rs, src/dbuf/src/ext/std_arc.rs)

The reader holds a strategy reader id and a pointer that may fail to
upgrade (`DoubleBufferReaderPointer::try_writer`); for the `std` backend the
pointer is a `Weak` and `try_writer` is `upgrade().ok_or(ArcUpgradeError)`.
The pointer type, the upgrade function, the strategy state and the id type
are abstracted. -/

structure RawReader (ι π : Type) where
  id : ι
  ptr : π

/-- `Reader::clone`: upgrade the pointer; on success mint a reader id with
`create_reader_id_from_reader`, on failure use `create_invalid_reader_id`.
Cloning itself never fails. -/
def RawReader.clone (tryWriter : π → Except ε W)
    (createFromReader : W → ι → ι) (invalid : ι) (r : RawReader ι π) :
    RawReader ι π :=
  match tryWriter r.ptr with
  | .ok w => { id := createFromReader w r.id, ptr := r.ptr }
  | .error _ => { id := invalid, ptr := r.ptr }

/-- `Reader::try_read`: `let ptr = self.ptr.try_writer()?;` then acquire a
guard from the strategy.  The strategy state `strat` is returned so the
theorem can state that a failed upgrade leaves it untouched. -/
def RawReader.tryRead (tryWriter : π → Except ε W)
    (acquire : σ → ι → σ × γ) (strat : σ) (r : RawReader ι π) :
    σ × Except ε γ :=
  match tryWriter r.ptr with
  | .error e => (strat, .error e)
  | .ok _ =>
    let (strat, g) := acquire strat r.id
    (strat, .ok g)

/-- `Weak::try_writer` of the `std` `Arc` backend, with the dead weak
pointer modelled as `none`. -/
def weakTryWriter (p : Option W) : Except Unit W :=
  match p with
  | some w => .ok w
  | none => .error ()

/-- C10.  Cloning a `Reader` always succeeds even after the writer and
payload are gone: when the pointer fails to upgrade the clone is built with
`create_invalid_reader_id` instead of failing, and any `try_read` on that
clone returns the pointer's upgrade error without touching the strategy's
reader-registration state. -/
theorem reader_clone_survives_dead_writer
    (ι π W ε σ γ : Type) (tryWriter : π → Except ε W)
    (createFromReader : W → ι → ι) (invalid : ι)
    (acquire : σ → ι → σ × γ) (strat : σ)
    (r : RawReader ι π) (e : ε) (h : tryWriter r.ptr = .error e) :
    RawReader.clone tryWriter createFromReader invalid r =
      { id := invalid, ptr := r.ptr } ∧
    RawReader.tryRead tryWriter acquire strat
        (RawReader.clone tryWriter createFromReader invalid r) =
      (strat, .error e) := by
  constructor
  · simp [RawReader.clone, h]
  · simp [RawReader.clone, RawReader.tryRead, h]

/-- Witness for `reader_clone_survives_dead_writer`: a reader over a dead
weak pointer (`none`); its clone carries the invalid id `0` and `try_read`
reports the upgrade error with the strategy state (`37`) unchanged. -/
theorem reader_clone_survives_dead_writer_witness :
    RawReader.clone weakTryWriter (fun (_ : Unit) (i : Nat) => i) 0
        { id := 5, ptr := (none : Option Unit) } =
      { id := 0, ptr := none } ∧
    RawReader.tryRead weakTryWriter (fun (s : Nat) (_ : Nat) => (s + 1, ())) 37
        (RawReader.clone weakTryWriter (fun (_ : Unit) (i : Nat) => i) 0
          { id := 5, ptr := (none : Option Unit) }) =
      (37, .error ()) :=
  reader_clone_survives_dead_writer Nat (Option Unit) Unit Unit Nat Unit
    weakTryWriter (fun _ i => i) 0 (fun s _ => (s + 1, ())) 37
    { id := 5, ptr := none } () rfl

end Dbuf
